import Mathlib

/-!
Shallow embedding of the download-and-mirror core of the opengapps-mirror-bot
repository: the asset-name parser, the checksum-sidecar reader and the mirror
orchestrator of internal/pkg/storage/package.go (with the shared helpers of
gapps/package.go). Go strings are lists of characters; effectful calls
(download queue, filesystem, HTTP) are supplied by explicit oracle records,
and the calls the orchestrator issues are recorded as an effect trace.
-/

/-- A Go string, modelled as a list of characters. -/
abbrev GoStr := List Char

/-- Coerce a Lean string literal into the Go string model. -/
def gs (s : String) : GoStr := s.data

deriving instance DecidableEq for Except

/-- Go strings.Split with a one-character separator (both separators in the
source, "." and "-", are one character); Split of the empty string is one
empty field, matching Go. -/
def splitOnChar (sep : Char) : GoStr → List GoStr
  | [] => [[]]
  | c :: rest =>
    if c = sep then [] :: splitOnChar sep rest
    else
      match splitOnChar sep rest with
      | t :: ts => (c :: t) :: ts
      | [] => [[c]]

/-- Go strings.TrimPrefix: drop the prefix when it is present, otherwise
return the string unchanged. -/
def goTrimPfx (s pfx : GoStr) : GoStr :=
  if pfx.isPrefixOf s then s.drop pfx.length else s

/-- Go fmt.Sprintf for a template holding a single %s verb (the only shape the
configuration templates use): the first %s is replaced by the argument. -/
def goSprintf1 : GoStr → GoStr → GoStr
  | [], _ => []
  | '%' :: 's' :: rest, arg => arg ++ rest
  | c :: rest, arg => c :: goSprintf1 rest arg

/-- Go fmt %d rendering of a non-negative length. -/
def natToGoStr (n : Nat) : GoStr := (toString n).data

/-- Modelled from the spec: the Platform closed enumeration (generated enumer
code absent from src; only its callers are in src). Values are the OpenGApps
platforms the spec and its examples name, each with a canonical string form. -/
inductive Platform where
  | arm | arm64 | x86 | x86_64
deriving DecidableEq

/-- Canonical string form of a platform (used in filenames and in the local
storage path). -/
def Platform.str : Platform → GoStr
  | .arm => gs "arm"
  | .arm64 => gs "arm64"
  | .x86 => gs "x86"
  | .x86_64 => gs "x86_64"

/-- Modelled from the spec: the Android version closed enumeration (generated
enumer code absent from src). Each version has a dotted filename token such
as 11.0; its canonical parse token is the dotless concatenation of the two
halves, because parseAsset (which is in src) re-joins the two pre-extension
name segments by plain concatenation before the lookup and the spec requires
the round trip to succeed. -/
inductive Android where
  | a44 | a50 | a51 | a60 | a70 | a71 | a80 | a81 | a90 | a100 | a110
deriving DecidableEq

/-- The part of the dotted Android token before the dot. -/
def Android.dotL : Android → GoStr
  | .a44 => gs "4"
  | .a50 => gs "5"
  | .a51 => gs "5"
  | .a60 => gs "6"
  | .a70 => gs "7"
  | .a71 => gs "7"
  | .a80 => gs "8"
  | .a81 => gs "8"
  | .a90 => gs "9"
  | .a100 => gs "10"
  | .a110 => gs "11"

/-- The part of the dotted Android token after the dot. -/
def Android.dotR : Android → GoStr
  | .a44 => gs "4"
  | .a50 => gs "0"
  | .a51 => gs "1"
  | .a60 => gs "0"
  | .a70 => gs "0"
  | .a71 => gs "1"
  | .a80 => gs "0"
  | .a81 => gs "1"
  | .a90 => gs "0"
  | .a100 => gs "0"
  | .a110 => gs "0"

/-- The dotted Android token as it appears in a release filename (for
example 11.0). -/
def Android.dotted (a : Android) : GoStr := a.dotL ++ '.' :: a.dotR

/-- The canonical parse token of an Android version: the dotless
concatenation of the two halves (for example 110). -/
def Android.str (a : Android) : GoStr := a.dotL ++ a.dotR

/-- Modelled from the spec: the Variant closed enumeration (generated enumer
code absent from src), the OpenGApps package variants. -/
inductive Variant where
  | pico | nano | micro | mini | full | stock | super | aroma | tvstock
deriving DecidableEq

/-- Canonical string form of a variant. -/
def Variant.str : Variant → GoStr
  | .pico => gs "pico"
  | .nano => gs "nano"
  | .micro => gs "micro"
  | .mini => gs "mini"
  | .full => gs "full"
  | .stock => gs "stock"
  | .super => gs "super"
  | .aroma => gs "aroma"
  | .tvstock => gs "tvstock"

/-- Modelled from the spec: the strict parse-or-fail lookup for Platform
(generated PlatformString, absent from src); unknown tokens are a hard error,
never defaulted. -/
def PlatformString (s : GoStr) : Except GoStr Platform :=
  if s = gs "arm" then .ok .arm
  else if s = gs "arm64" then .ok .arm64
  else if s = gs "x86" then .ok .x86
  else if s = gs "x86_64" then .ok .x86_64
  else .error (s ++ gs " does not belong to Platform values")

/-- Modelled from the spec: the strict parse-or-fail lookup for Android
(generated AndroidString, absent from src), keyed by the canonical dotless
token that parseAsset produces. -/
def AndroidString (s : GoStr) : Except GoStr Android :=
  if s = gs "44" then .ok .a44
  else if s = gs "50" then .ok .a50
  else if s = gs "51" then .ok .a51
  else if s = gs "60" then .ok .a60
  else if s = gs "70" then .ok .a70
  else if s = gs "71" then .ok .a71
  else if s = gs "80" then .ok .a80
  else if s = gs "81" then .ok .a81
  else if s = gs "90" then .ok .a90
  else if s = gs "100" then .ok .a100
  else if s = gs "110" then .ok .a110
  else .error (s ++ gs " does not belong to Android values")

/-- Modelled from the spec: the strict parse-or-fail lookup for Variant
(generated VariantString, absent from src). -/
def VariantString (s : GoStr) : Except GoStr Variant :=
  if s = gs "pico" then .ok .pico
  else if s = gs "nano" then .ok .nano
  else if s = gs "micro" then .ok .micro
  else if s = gs "mini" then .ok .mini
  else if s = gs "full" then .ok .full
  else if s = gs "stock" then .ok .stock
  else if s = gs "super" then .ok .super
  else if s = gs "aroma" then .ok .aroma
  else if s = gs "tvstock" then .ok .tvstock
  else .error (s ++ gs " does not belong to Variant values")

/-- Decimal digit test, as Go time parsing applies it byte by byte. -/
def isDigitCh (c : Char) : Bool := '0' ≤ c && c ≤ '9'

/-- Numeric value of a digit string. -/
def digitsVal (l : GoStr) : Nat := l.foldl (fun a c => 10 * a + (c.toNat - 48)) 0

/-- Gregorian leap-year rule, as Go time uses it. -/
def isLeapYear (y : Nat) : Bool := y % 4 = 0 && (y % 100 != 0 || y % 400 = 0)

/-- Days in a month, as Go time uses it. -/
def daysInMonth (y m : Nat) : Nat :=
  if m = 2 then (if isLeapYear y then 29 else 28)
  else if m = 4 ∨ m = 6 ∨ m = 9 ∨ m = 11 then 30
  else 31

/-- Go time.Parse against the repository's TimeFormat constant 20060102:
exactly four year digits, two month digits and two day digits, with the
month and day range-checked against the calendar. -/
def goDateParse20060102 (s : GoStr) : Bool :=
  decide (s.length = 8) && s.all isDigitCh &&
    (let y := digitsVal (s.take 4)
     let m := digitsVal ((s.drop 4).take 2)
     let d := digitsVal (s.drop 6)
     decide (1 ≤ m) && decide (m ≤ 12) && decide (1 ≤ d) && decide (d ≤ daysInMonth y m))

/-- The Package value of internal/pkg/storage/package.go. -/
structure Package where
  Name : GoStr
  Date : GoStr
  OriginURL : GoStr
  LocalURL : GoStr
  RemoteURL : GoStr
  MD5 : GoStr
  Size : Int
  Platform : Platform
  Android : Android
  Variant : Variant
deriving DecidableEq

/-- ParsePackageParts of gapps/package.go: exactly three arguments, each
decoded through its strict enumeration lookup; the length error message
claims to want 4 even though 3 is accepted, exactly as in the source. -/
def ParsePackageParts (args : List GoStr) : Except GoStr (Platform × Android × Variant) :=
  match args with
  | [a, b, c] =>
    match PlatformString a with
    | .error e => .error (gs "parsing error: " ++ e)
    | .ok pl =>
      match AndroidString b with
      | .error e => .error (gs "parsing error: " ++ e)
      | .ok an =>
        match VariantString c with
        | .error e => .error (gs "parsing error: " ++ e)
        | .ok v => .ok (pl, an, v)
  | _ => .error (gs "bad number of arguments: want 4, got " ++ natToGoStr args.length)

/-- parseAsset of internal/pkg/storage/package.go, parameterised by the
configured prefix (gapps.prefix) and by the date-validity test that
time.Parse with the configured format performs. An error return carries no
Package at all, by the Except type. The wrapped cause inside the
time-parsing error is abbreviated to its context string. -/
def parseAsset (pfx : GoStr) (dateOK : GoStr → Bool) (name url md5Sum : GoStr)
    (size : Int) : Except GoStr Package :=
  match splitOnChar '.' (goTrimPfx name (pfx ++ gs "-")) with
  | [seg0, seg1, ext] =>
    if ext ≠ gs "zip" then .error (gs "incorrect package extension: " ++ ext)
    else
      match splitOnChar '-' (seg0 ++ seg1) with
      | [t0, t1, t2, t3] =>
        match ParsePackageParts [t0, t1, t2] with
        | .error e => .error e
        | .ok (pl, an, v) =>
          if dateOK t3 then
            .ok { Name := name, Date := t3, OriginURL := url, LocalURL := [],
                  RemoteURL := [], MD5 := md5Sum, Size := size, Platform := pl,
                  Android := an, Variant := v }
          else .error (gs "unable to parse time")
      | _ => .error (gs "incorrect package name: " ++ name)
  | _ => .error (gs "incorrect package name: " ++ name)

/-- An HTTP response as the upload step observes it: the numeric status code,
the Status text (for example 201 Created), and the body read, which may
itself fail. -/
structure HTTPResponse where
  status : Nat
  statusText : GoStr
  body : Except GoStr GoStr
deriving DecidableEq

/-- An HTTP request as CreateMirror builds it. -/
structure HTTPRequest where
  method : GoStr
  url : GoStr
  headers : List (GoStr × GoStr)
deriving DecidableEq

/-- One externally visible call made by CreateMirror, in program order:
the download-queue call with its exact arguments, the filesystem calls of
the move step with their permission modes, the upload request, and the
deferred removal of the temporary file. -/
inductive Effect where
  | download (url md5 : GoStr) (retries : Nat) (size : Int)
  | mkdir (path : GoStr) (mode : Nat)
  | rename (origin dest : GoStr)
  | chmod (path : GoStr) (mode : Nat)
  | upload (req : HTTPRequest)
  | removeTemp (path : GoStr)
deriving DecidableEq

/-- Oracle record for the effectful collaborators of CreateMirror: the
download queue result, the filesystem operations, os.Open (the source opens
filepath.Clean of the current path; the oracle is keyed by that path), the
possible http.NewRequest failure, and the HTTP client. -/
structure Env where
  download : Except GoStr GoStr
  mkdirAll : GoStr → Except GoStr Unit
  rename : GoStr → GoStr → Except GoStr Unit
  chmod : GoStr → Except GoStr Unit
  openFile : GoStr → Except GoStr Unit
  newReqErr : Option GoStr
  doRequest : HTTPRequest → Except GoStr HTTPResponse

/-- The three configuration reads CreateMirror performs (viper GetString
results); the empty string means the option is unset. -/
structure Config where
  localPath : GoStr
  localURL : GoStr
  remoteURL : GoStr
deriving DecidableEq

/-- The early-return condition of CreateMirror, exactly as the source tests
it: a configured local tier whose URL is already present, or a configured
remote tier whose URL is already present. -/
def mirrorGuard (p : Package) (cfg : Config) : Prop :=
  (cfg.localURL ≠ [] ∧ p.LocalURL ≠ []) ∨ (cfg.remoteURL ≠ [] ∧ p.RemoteURL ≠ [])

instance mirrorGuardDecidable (p : Package) (cfg : Config) : Decidable (mirrorGuard p cfg) := by
  unfold mirrorGuard; exact inferInstance

/-- Package.move of internal/pkg/storage/package.go: build the directory
path from the destination folder, the platform string and the date, create
it with mode 0755, move the file under its name, chmod it 0755; the returned
trace records the filesystem calls actually issued. -/
def Package.move (p : Package) (origin destFolder : GoStr) (env : Env) :
    Except GoStr GoStr × List Effect :=
  let path := destFolder ++ p.Platform.str ++ gs "/" ++ p.Date
  match env.mkdirAll path with
  | .error e => (.error (gs "unable to create folder: " ++ e), [.mkdir path 0o755])
  | .ok _ =>
    let path2 := path ++ gs "/" ++ p.Name
    match env.rename origin path2 with
    | .error e =>
      (.error (gs "unable to move file: " ++ e), [.mkdir path 0o755, .rename origin path2])
    | .ok _ =>
      match env.chmod path2 with
      | .error e =>
        (.error (gs "unable to set file permissions: " ++ e),
         [.mkdir path 0o755, .rename origin path2, .chmod path2 0o755])
      | .ok _ =>
        (.ok path2, [.mkdir path 0o755, .rename origin path2, .chmod path2 0o755])

/-- The upload request CreateMirror builds: a PUT to the remote template with
the package name substituted, with the fixed Content-Type and Max-Days
headers. -/
def mkUploadReq (tpl name : GoStr) : HTTPRequest :=
  { method := gs "PUT", url := goSprintf1 tpl name,
    headers := [(gs "Content-Type", gs "application/zip"), (gs "Max-Days", gs "7")] }

/-- The remote-mirroring block of CreateMirror (the body of its final if):
skipped when gapps.remote_url is unset; otherwise open the file, build the
PUT request, send it, treat any status other than 200 as a fatal error
carrying the response status text, and on 200 store the fully read response
body verbatim as RemoteURL. -/
def remoteStep (p : Package) (remoteURL filePath : GoStr) (env : Env) :
    Except GoStr Unit × Package × List Effect :=
  if remoteURL = [] then (.ok (), p, [])
  else
    match env.openFile filePath with
    | .error e => (.error (gs "unable to create temp file: " ++ e), p, [])
    | .ok _ =>
      match env.newReqErr with
      | some e => (.error (gs "unable to create upload request: " ++ e), p, [])
      | none =>
        let req := mkUploadReq remoteURL p.Name
        match env.doRequest req with
        | .error e => (.error (gs "unable to make upload request: " ++ e), p, [.upload req])
        | .ok resp =>
          if resp.status ≠ 200 then
            (.error (gs "unable to make upload request: " ++ resp.statusText), p, [.upload req])
          else
            match resp.body with
            | .error e => (.error (gs "unable to read mirror response body: " ++ e), p, [.upload req])
            | .ok result => (.ok (), { p with RemoteURL := result }, [.upload req])

/-- Package.CreateMirror of internal/pkg/storage/package.go: the early
guard, the AddMultiple download with its fixed retry budget of 20, the
optional local move with LocalURL templating on the path relative to the
local base, the deferred temporary-file removal when no local path is
configured, and the remote upload step. Returns the error result, the
updated package and the trace of external calls. -/
def Package.CreateMirror (p : Package) (cfg : Config) (env : Env) :
    Except GoStr Unit × Package × List Effect :=
  if mirrorGuard p cfg then (.ok (), p, [])
  else
    let dl := Effect.download p.OriginURL p.MD5 20 p.Size
    match env.download with
    | .error e => (.error (gs "unable to read file body: " ++ e), p, [dl])
    | .ok fp0 =>
      if cfg.localPath ≠ [] then
        match p.move fp0 cfg.localPath env with
        | (.error e, effs) =>
          (.error (gs "unable to move the file to storage: " ++ e), p, dl :: effs)
        | (.ok fp1, effs) =>
          let p1 := if cfg.localURL ≠ ([] : GoStr) then
              { p with LocalURL := goSprintf1 cfg.localURL (goTrimPfx fp1 cfg.localPath) }
            else p
          let r := remoteStep p1 cfg.remoteURL fp1 env
          (r.1, r.2.1, dl :: effs ++ r.2.2)
      else
        let r := remoteStep p cfg.remoteURL fp0 env
        (r.1, r.2.1, dl :: r.2.2 ++ [.removeTemp fp0])

/-- Oracle record for getMD5: the AddSingle download of the sidecar file,
then os.Open and ioutil.ReadAll on the returned path. -/
structure SidecarEnv where
  addSingle : Except GoStr GoStr
  openFile : GoStr → Except GoStr Unit
  readAll : GoStr → Except GoStr GoStr

/-- The first element of Go strings.Split(content, two spaces): the prefix
of the content before its leftmost occurrence of two consecutive spaces, or
the whole content when there is none. -/
def goSplitFirst : GoStr → GoStr
  | [] => []
  | [c] => [c]
  | c1 :: c2 :: rest =>
    if c1 = ' ' ∧ c2 = ' ' then [] else c1 :: goSplitFirst (c2 :: rest)

/-- Whether a string holds two consecutive spaces anywhere. -/
def containsDoubleSpace : GoStr → Bool
  | c1 :: c2 :: rest => (c1 = ' ' && c2 = ' ') || containsDoubleSpace (c2 :: rest)
  | _ => false

/-- getMD5 of internal/pkg/storage/package.go: download the sidecar with
AddSingle, open and read it, and return the first field of the double-space
split of its content; content processing itself never fails. -/
def getMD5 (env : SidecarEnv) : Except GoStr GoStr :=
  match env.addSingle with
  | .error e => .error (gs "unable to download MD5 file: " ++ e)
  | .ok fp =>
    match env.openFile fp with
    | .error e => .error (gs "unable to open MD5 file: " ++ e)
    | .ok _ =>
      match env.readAll fp with
      | .error e => .error (gs "unable to read MD5 file: " ++ e)
      | .ok content => .ok (goSplitFirst content)

/-- A release filename assembled from the configured prefix, valid enum
tokens (dotted Android token) and a date, in the documented shape
prefix-platform-android-variant-date.zip. -/
def mkAssetName (pfx : GoStr) (pl : Platform) (a : Android) (v : Variant) (d : GoStr) : GoStr :=
  pfx ++ gs "-" ++ pl.str ++ gs "-" ++ a.dotted ++ gs "-" ++ v.str ++ gs "-" ++ d ++ gs ".zip"

/-- A concrete sidecar oracle used to exercise getMD5. -/
def sidecarEnvW : SidecarEnv :=
  { addSingle := .ok (gs "/tmp/md5"),
    openFile := fun _ => .ok (),
    readAll := fun _ => .ok (gs "abc123  open_gapps-arm64-11.0-pico-20230101.zip") }

/-! Concrete packages, configurations and oracles exercising the
orchestrator. -/

/-- A freshly parsed package with no mirror URLs yet. -/
def pkgFresh : Package :=
  { Name := gs "open_gapps-arm64-11.0-pico-20230101.zip", Date := gs "20230101",
    OriginURL := gs "http://host/a.zip", LocalURL := [], RemoteURL := [],
    MD5 := gs "d41d8cd9", Size := 123, Platform := .arm64, Android := .a110,
    Variant := .pico }

/-- The same package with only its local mirror URL populated. -/
def pkgLocalDone : Package := { pkgFresh with LocalURL := gs "http://local/x" }

/-- A configuration with all three storage options set. -/
def cfgBoth : Config :=
  { localPath := gs "/data/", localURL := gs "http://local/%s",
    remoteURL := gs "http://up/%s" }

/-- A configuration with only the local URL template set (no local path). -/
def cfgLocalURLOnly : Config :=
  { localPath := [], localURL := gs "http://local/%s", remoteURL := [] }

/-- A successful 200 upload response. -/
def respW : HTTPResponse :=
  { status := 200, statusText := gs "200 OK",
    body := .ok (gs "https://transfer.sh/abc/x.zip") }

/-- An oracle on which every external call succeeds. -/
def okEnv : Env :=
  { download := .ok (gs "/tmp/pkg"), mkdirAll := fun _ => .ok (),
    rename := fun _ _ => .ok (), chmod := fun _ => .ok (),
    openFile := fun _ => .ok (), newReqErr := none,
    doRequest := fun _ => .ok respW }

/-- The same oracle with a failing download queue. -/
def errEnv : Env := { okEnv with download := .error (gs "connection reset") }

/-! Helper lemmas about the Go string model. -/

theorem splitOnChar_not_mem {sep : Char} {xs : GoStr} (h : sep ∉ xs) :
    splitOnChar sep xs = [xs] := by
  induction xs with
  | nil => rfl
  | cons c rest ih =>
    have hc : ¬ c = sep := fun hcs => h (hcs ▸ List.mem_cons_self c rest)
    have hr : sep ∉ rest := fun hm => h (List.mem_cons_of_mem c hm)
    simp [splitOnChar, hc, ih hr]

theorem splitOnChar_append {sep : Char} {xs : GoStr} (ys : GoStr) (h : sep ∉ xs) :
    splitOnChar sep (xs ++ sep :: ys) = xs :: splitOnChar sep ys := by
  induction xs with
  | nil => simp [splitOnChar]
  | cons c rest ih =>
    have hc : ¬ c = sep := fun hcs => h (hcs ▸ List.mem_cons_self c rest)
    have hr : sep ∉ rest := fun hm => h (List.mem_cons_of_mem c hm)
    simp [splitOnChar, hc, ih hr]

theorem goTrimPfx_append (pfx rest : GoStr) : goTrimPfx (pfx ++ rest) pfx = rest := by
  have hpre : pfx.isPrefixOf (pfx ++ rest) = true := by
    rw [List.isPrefixOf_iff_prefix]
    exact List.prefix_append pfx rest
  simp [goTrimPfx, hpre]

theorem goSprintf1_ne_nil {tpl arg : GoStr} (ht : tpl ≠ []) (ha : arg ≠ []) :
    goSprintf1 tpl arg ≠ [] := by
  rw [goSprintf1.eq_def]
  split
  · exact absurd rfl ht
  · exact fun h => ha (List.append_eq_nil.mp h).1
  · simp

/-! Helper lemmas about the enumerations and the date test, feeding the
round-trip proof. -/

theorem platform_no_dot (pl : Platform) : '.' ∉ pl.str := by cases pl <;> decide

theorem platform_no_dash (pl : Platform) : '-' ∉ pl.str := by cases pl <;> decide

theorem Android.dotL_no_dot (a : Android) : '.' ∉ a.dotL := by cases a <;> decide

theorem Android.dotL_no_dash (a : Android) : '-' ∉ a.dotL := by cases a <;> decide

theorem Android.dotR_no_dot (a : Android) : '.' ∉ a.dotR := by cases a <;> decide

theorem Android.dotR_no_dash (a : Android) : '-' ∉ a.dotR := by cases a <;> decide

theorem variant_no_dot (v : Variant) : '.' ∉ v.str := by cases v <;> decide

theorem variant_no_dash (v : Variant) : '-' ∉ v.str := by cases v <;> decide

theorem PlatformString_str (pl : Platform) : PlatformString pl.str = .ok pl := by
  cases pl <;> decide

theorem AndroidString_str (a : Android) : AndroidString (a.dotL ++ a.dotR) = .ok a := by
  cases a <;> decide

theorem VariantString_str (v : Variant) : VariantString v.str = .ok v := by
  cases v <;> decide

theorem goDateParse_digits {d : GoStr} (h : goDateParse20060102 d = true) :
    ∀ c ∈ d, isDigitCh c = true := by
  simp only [goDateParse20060102, Bool.and_eq_true, decide_eq_true_eq,
    List.all_eq_true] at h
  exact h.1.2

theorem goDateParse_no_dot {d : GoStr} (h : goDateParse20060102 d = true) : '.' ∉ d :=
  fun hmem => absurd (goDateParse_digits h _ hmem) (by decide)

theorem goDateParse_no_dash {d : GoStr} (h : goDateParse20060102 d = true) : '-' ∉ d :=
  fun hmem => absurd (goDateParse_digits h _ hmem) (by decide)

/-- C3: parsing a filename built from valid enum tokens (the Android token
carrying its dot) and a date valid under the configured format succeeds and
recovers exactly the platform, android, variant and date it was built from,
through the re-join by plain concatenation of the two pre-extension
segments. -/
theorem parseAsset_roundtrip (pfx : GoStr) (pl : Platform) (a : Android) (v : Variant)
    (d url md5Sum : GoStr) (size : Int) (hd : goDateParse20060102 d = true) :
    parseAsset pfx goDateParse20060102 (mkAssetName pfx pl a v d) url md5Sum size =
      .ok { Name := mkAssetName pfx pl a v d, Date := d, OriginURL := url,
            LocalURL := [], RemoteURL := [], MD5 := md5Sum, Size := size,
            Platform := pl, Android := a, Variant := v } := by
  have hd_dot : '.' ∉ d := goDateParse_no_dot hd
  have hd_dash : '-' ∉ d := goDateParse_no_dash hd
  have hX1 : '.' ∉ pl.str ++ '-' :: a.dotL := by
    intro hm
    rcases List.mem_append.mp hm with h | h
    · exact platform_no_dot pl h
    · rcases List.mem_cons.mp h with h | h
      · exact absurd h (by decide)
      · exact Android.dotL_no_dot a h
  have hX2 : '.' ∉ a.dotR ++ '-' :: (v.str ++ '-' :: d) := by
    intro hm
    rcases List.mem_append.mp hm with h | h
    · exact Android.dotR_no_dot a h
    · rcases List.mem_cons.mp h with h | h
      · exact absurd h (by decide)
      · rcases List.mem_append.mp h with h | h
        · exact variant_no_dot v h
        · rcases List.mem_cons.mp h with h | h
          · exact absurd h (by decide)
          · exact hd_dot h
  have hAd : '-' ∉ a.dotL ++ a.dotR := by
    intro hm
    rcases List.mem_append.mp hm with h | h
    · exact Android.dotL_no_dash a h
    · exact Android.dotR_no_dash a h
  have hzip : ('.' : Char) ∉ gs "zip" := by decide
  have hdash : gs "-" = ['-'] := rfl
  have hdotzip : gs ".zip" = '.' :: gs "zip" := rfl
  have hname : mkAssetName pfx pl a v d =
      (pfx ++ gs "-") ++
        ((pl.str ++ '-' :: a.dotL) ++ '.' ::
          ((a.dotR ++ '-' :: (v.str ++ '-' :: d)) ++ '.' :: gs "zip")) := by
    simp only [mkAssetName, Android.dotted, hdash, hdotzip, List.append_assoc,
      List.cons_append, List.singleton_append, List.nil_append]
  have hpath : (pl.str ++ '-' :: a.dotL) ++ (a.dotR ++ '-' :: (v.str ++ '-' :: d)) =
      pl.str ++ '-' :: ((a.dotL ++ a.dotR) ++ '-' :: (v.str ++ '-' :: d)) := by
    simp only [List.append_assoc, List.cons_append]
  unfold parseAsset
  rw [hname, goTrimPfx_append, splitOnChar_append _ hX1, splitOnChar_append _ hX2,
    splitOnChar_not_mem hzip]
  dsimp only
  rw [if_neg (fun h => h rfl)]
  rw [hpath, splitOnChar_append _ (platform_no_dash pl), splitOnChar_append _ hAd,
    splitOnChar_append _ (variant_no_dash v), splitOnChar_not_mem hd_dash]
  dsimp only
  rw [ParsePackageParts]
  rw [PlatformString_str, AndroidString_str, VariantString_str]
  simp [hd]

theorem ParsePackageParts_errors_iff (a b c : GoStr) :
    (∃ e, ParsePackageParts [a, b, c] = .error e) ↔
      ((PlatformString a).toOption = none ∨ (AndroidString b).toOption = none ∨
        (VariantString c).toOption = none) := by
  cases hp : PlatformString a with
  | error e => simp [ParsePackageParts, hp, Except.toOption]
  | ok pl =>
    cases hA : AndroidString b with
    | error e => simp [ParsePackageParts, hp, hA, Except.toOption]
    | ok an =>
      cases hv : VariantString c with
      | error e => simp [ParsePackageParts, hp, hA, hv, Except.toOption]
      | ok v => simp [ParsePackageParts, hp, hA, hv, Except.toOption]

/-- C4: any asset name that fails one of the checks of parseAsset — a
dot-split with other than three segments, an extension other than zip, a
separator-split with other than four tokens, an unknown platform, android or
variant token, or an invalid date — makes parseAsset return an error; no
Package accompanies an error return, by the Except result type. -/
theorem parseAsset_rejects (pfx : GoStr) (dateOK : GoStr → Bool)
    (name url md5Sum : GoStr) (size : Int)
    (hbad : match splitOnChar '.' (goTrimPfx name (pfx ++ gs "-")) with
      | [seg0, seg1, ext] =>
        ext ≠ gs "zip" ∨
          match splitOnChar '-' (seg0 ++ seg1) with
          | [t0, t1, t2, t3] =>
            (PlatformString t0).toOption = none ∨ (AndroidString t1).toOption = none ∨
              (VariantString t2).toOption = none ∨ dateOK t3 = false
          | _ => True
      | _ => True) :
    ∃ e, parseAsset pfx dateOK name url md5Sum size = .error e := by
  unfold parseAsset
  rcases h1 : splitOnChar '.' (goTrimPfx name (pfx ++ gs "-")) with
    _ | ⟨s0, _ | ⟨s1, _ | ⟨s2, _ | ⟨s3, r⟩⟩⟩⟩
  · exact ⟨_, rfl⟩
  · exact ⟨_, rfl⟩
  · exact ⟨_, rfl⟩
  · rw [h1] at hbad
    dsimp only at hbad ⊢
    by_cases hz : s2 = gs "zip"
    · rw [if_neg (not_not_intro hz)]
      rcases hbad with hbad | hbad
      · exact absurd hz hbad
      · rcases h2 : splitOnChar '-' (s0 ++ s1) with
          _ | ⟨t0, _ | ⟨t1, _ | ⟨t2, _ | ⟨t3, _ | ⟨t4, r2⟩⟩⟩⟩⟩
        · exact ⟨_, rfl⟩
        · exact ⟨_, rfl⟩
        · exact ⟨_, rfl⟩
        · exact ⟨_, rfl⟩
        · rw [h2] at hbad
          dsimp only at hbad ⊢
          rcases hbad with hp | hA | hv | hdate
          · obtain ⟨e, he⟩ := (ParsePackageParts_errors_iff t0 t1 t2).mpr (Or.inl hp)
            rw [he]
            exact ⟨_, rfl⟩
          · obtain ⟨e, he⟩ := (ParsePackageParts_errors_iff t0 t1 t2).mpr (Or.inr (Or.inl hA))
            rw [he]
            exact ⟨_, rfl⟩
          · obtain ⟨e, he⟩ :=
              (ParsePackageParts_errors_iff t0 t1 t2).mpr (Or.inr (Or.inr hv))
            rw [he]
            exact ⟨_, rfl⟩
          · cases hp3 : ParsePackageParts [t0, t1, t2] with
            | error e => exact ⟨_, rfl⟩
            | ok triple =>
              obtain ⟨pl, an, v⟩ := triple
              dsimp only
              simp [hdate]
        · exact ⟨_, rfl⟩
    · rw [if_pos hz]
      exact ⟨_, rfl⟩
  · exact ⟨_, rfl⟩

theorem parseAsset_roundtrip_witness :
    goDateParse20060102 (gs "20230101") = true ∧
    parseAsset (gs "open_gapps") goDateParse20060102
        (mkAssetName (gs "open_gapps") .arm64 .a110 .pico (gs "20230101"))
        (gs "http://host/a.zip") (gs "d41d8cd9") 123 =
      .ok { Name := mkAssetName (gs "open_gapps") .arm64 .a110 .pico (gs "20230101"),
            Date := gs "20230101", OriginURL := gs "http://host/a.zip",
            LocalURL := [], RemoteURL := [], MD5 := gs "d41d8cd9", Size := 123,
            Platform := .arm64, Android := .a110, Variant := .pico } :=
  ⟨by decide, parseAsset_roundtrip _ _ _ _ _ _ _ _ (by decide)⟩

theorem parseAsset_rejects_witness :
    (match splitOnChar '.'
        (goTrimPfx (gs "open_gapps-foo-11.0-pico-20230101.zip") (gs "open_gapps" ++ gs "-")) with
      | [seg0, seg1, ext] =>
        ext ≠ gs "zip" ∨
          match splitOnChar '-' (seg0 ++ seg1) with
          | [t0, t1, t2, t3] =>
            (PlatformString t0).toOption = none ∨ (AndroidString t1).toOption = none ∨
              (VariantString t2).toOption = none ∨ goDateParse20060102 t3 = false
          | _ => True
      | _ => True) ∧
    ∃ e, parseAsset (gs "open_gapps") goDateParse20060102
        (gs "open_gapps-foo-11.0-pico-20230101.zip") (gs "u") (gs "m") 1 = .error e :=
  ⟨Or.inr (Or.inl (by decide)), parseAsset_rejects _ _ _ _ _ _ (Or.inr (Or.inl (by decide)))⟩

/-- C10: ParsePackageParts errs exactly when the argument count is not three
or one of the three enumeration lookups fails; the length error message
claims to want 4 arguments although 3 is the accepted count. -/
theorem ParsePackageParts_spec (args : List GoStr) :
    (args.length ≠ 3 →
      ParsePackageParts args =
        .error (gs "bad number of arguments: want 4, got " ++ natToGoStr args.length)) ∧
    (∀ a b c, args = [a, b, c] →
      ((∃ e, ParsePackageParts args = .error e) ↔
        ((PlatformString a).toOption = none ∨ (AndroidString b).toOption = none ∨
          (VariantString c).toOption = none))) := by
  constructor
  · intro hlen
    rcases args with _ | ⟨a, _ | ⟨b, _ | ⟨c, _ | ⟨d, r⟩⟩⟩⟩
    · rfl
    · rfl
    · rfl
    · exact absurd rfl hlen
    · rfl
  · rintro a b c rfl
    exact ParsePackageParts_errors_iff a b c

theorem ParsePackageParts_spec_witness :
    ([gs "arm64"].length ≠ 3 ∧
      ParsePackageParts [gs "arm64"] =
        .error (gs "bad number of arguments: want 4, got 1")) ∧
    (∃ e, ParsePackageParts [gs "foo", gs "110", gs "pico"] = .error e) :=
  ⟨⟨by decide, (ParsePackageParts_spec [gs "arm64"]).1 (by decide)⟩,
   ((ParsePackageParts_spec [gs "foo", gs "110", gs "pico"]).2 _ _ _ rfl).mpr
     (Or.inl (by decide))⟩

theorem goSplitFirst_spec (l : GoStr) :
    (containsDoubleSpace l = false → goSplitFirst l = l) ∧
    (containsDoubleSpace l = true →
      ∃ s, l = goSplitFirst l ++ ' ' :: ' ' :: s ∧
        containsDoubleSpace (goSplitFirst l ++ [' ']) = false) := by
  induction l with
  | nil => exact ⟨fun _ => rfl, fun h => by simp [containsDoubleSpace] at h⟩
  | cons c1 tail ih =>
    cases tail with
    | nil => exact ⟨fun _ => rfl, fun h => by simp [containsDoubleSpace] at h⟩
    | cons c2 rest =>
      by_cases hsp : c1 = ' ' ∧ c2 = ' '
      · obtain ⟨h1, h2⟩ := hsp
        subst h1; subst h2
        constructor
        · intro h
          simp [containsDoubleSpace] at h
        · intro _
          refine ⟨rest, ?_, ?_⟩
          · simp [goSplitFirst]
          · simp [goSplitFirst, containsDoubleSpace]
      · have hgs : goSplitFirst (c1 :: c2 :: rest) = c1 :: goSplitFirst (c2 :: rest) := by
          simp [goSplitFirst, hsp]
        have hcont : containsDoubleSpace (c1 :: c2 :: rest) = containsDoubleSpace (c2 :: rest) := by
          simp [containsDoubleSpace, hsp]
        constructor
        · intro h
          rw [hcont] at h
          rw [hgs, ih.1 h]
        · intro h
          rw [hcont] at h
          obtain ⟨s, hs1, hs2⟩ := ih.2 h
          refine ⟨s, ?_, ?_⟩
          · rw [hgs, List.cons_append]
            exact congrArg (List.cons c1) hs1
          · rw [hgs, List.cons_append]
            cases hg : goSplitFirst (c2 :: rest) with
            | nil =>
              rw [hg] at hs1
              have hc2 : c2 = ' ' := by simpa using congrArg (fun l => l.head?) hs1
              have hc1 : ¬ c1 = ' ' := fun hc1 => hsp ⟨hc1, hc2⟩
              simp [containsDoubleSpace, hc1]
            | cons g0 g2 =>
              rw [hg] at hs1 hs2
              have hc2 : c2 = g0 := by simpa using congrArg (fun l => l.head?) hs1
              have hpair : ¬(c1 = ' ' ∧ g0 = ' ') := fun hb => hsp ⟨hb.1, hc2 ▸ hb.2⟩
              simp only [List.cons_append, containsDoubleSpace]
              rw [Bool.or_eq_false_iff]
              refine ⟨?_, by simpa [List.cons_append] using hs2⟩
              by_cases h1 : c1 = ' '
              · have h2 : ¬ g0 = ' ' := fun h2 => hpair ⟨h1, h2⟩
                simp [h1, h2]
              · simp [h1]

/-- C9: once the sidecar content is downloaded and read, getMD5 returns the
prefix of the content before the first occurrence of two consecutive spaces,
or the whole content verbatim when there is none; the content processing
itself never produces an error. -/
theorem getMD5_spec (env : SidecarEnv) (fp content : GoStr)
    (h1 : env.addSingle = .ok fp) (h2 : env.openFile fp = .ok ())
    (h3 : env.readAll fp = .ok content) :
    getMD5 env = .ok (goSplitFirst content) ∧
    (containsDoubleSpace content = false → goSplitFirst content = content) ∧
    (containsDoubleSpace content = true →
      ∃ s, content = goSplitFirst content ++ ' ' :: ' ' :: s ∧
        containsDoubleSpace (goSplitFirst content ++ [' ']) = false) := by
  refine ⟨?_, (goSplitFirst_spec content).1, (goSplitFirst_spec content).2⟩
  simp [getMD5, h1, h2, h3]

theorem getMD5_spec_witness :
    (sidecarEnvW.addSingle = .ok (gs "/tmp/md5") ∧
      sidecarEnvW.openFile (gs "/tmp/md5") = .ok () ∧
      sidecarEnvW.readAll (gs "/tmp/md5") =
        .ok (gs "abc123  open_gapps-arm64-11.0-pico-20230101.zip")) ∧
    getMD5 sidecarEnvW = .ok (gs "abc123") :=
  ⟨⟨rfl, rfl, rfl⟩, (getMD5_spec sidecarEnvW _ _ rfl rfl rfl).1⟩

/-! Helper lemmas about remoteStep and move, shared by the orchestrator
theorems. -/

theorem remoteStep_keeps_Name (p : Package) (tpl fp : GoStr) (env : Env) :
    (remoteStep p tpl fp env).2.1.Name = p.Name := by
  unfold remoteStep
  dsimp only
  (repeat' split) <;> rfl

theorem remoteStep_keeps_Date (p : Package) (tpl fp : GoStr) (env : Env) :
    (remoteStep p tpl fp env).2.1.Date = p.Date := by
  unfold remoteStep
  dsimp only
  (repeat' split) <;> rfl

theorem remoteStep_keeps_OriginURL (p : Package) (tpl fp : GoStr) (env : Env) :
    (remoteStep p tpl fp env).2.1.OriginURL = p.OriginURL := by
  unfold remoteStep
  dsimp only
  (repeat' split) <;> rfl

theorem remoteStep_keeps_LocalURL (p : Package) (tpl fp : GoStr) (env : Env) :
    (remoteStep p tpl fp env).2.1.LocalURL = p.LocalURL := by
  unfold remoteStep
  dsimp only
  (repeat' split) <;> rfl

theorem remoteStep_keeps_MD5 (p : Package) (tpl fp : GoStr) (env : Env) :
    (remoteStep p tpl fp env).2.1.MD5 = p.MD5 := by
  unfold remoteStep
  dsimp only
  (repeat' split) <;> rfl

theorem remoteStep_keeps_Size (p : Package) (tpl fp : GoStr) (env : Env) :
    (remoteStep p tpl fp env).2.1.Size = p.Size := by
  unfold remoteStep
  dsimp only
  (repeat' split) <;> rfl

theorem remoteStep_keeps_Platform (p : Package) (tpl fp : GoStr) (env : Env) :
    (remoteStep p tpl fp env).2.1.Platform = p.Platform := by
  unfold remoteStep
  dsimp only
  (repeat' split) <;> rfl

theorem remoteStep_keeps_Android (p : Package) (tpl fp : GoStr) (env : Env) :
    (remoteStep p tpl fp env).2.1.Android = p.Android := by
  unfold remoteStep
  dsimp only
  (repeat' split) <;> rfl

theorem remoteStep_keeps_Variant (p : Package) (tpl fp : GoStr) (env : Env) :
    (remoteStep p tpl fp env).2.1.Variant = p.Variant := by
  unfold remoteStep
  dsimp only
  (repeat' split) <;> rfl

theorem remoteStep_nil (p : Package) (fp : GoStr) (env : Env) :
    remoteStep p [] fp env = (.ok (), p, []) := rfl

theorem remoteStep_ok (p : Package) (tpl fp : GoStr) (env : Env)
    (htpl : tpl ≠ []) (hok : (remoteStep p tpl fp env).1 = .ok ()) :
    ∃ resp b, env.doRequest (mkUploadReq tpl p.Name) = .ok resp ∧ resp.status = 200 ∧
      resp.body = .ok b ∧ (remoteStep p tpl fp env).2.1 = { p with RemoteURL := b } := by
  unfold remoteStep at hok ⊢
  rw [if_neg htpl] at hok ⊢
  cases ho : env.openFile fp with
  | error e => rw [ho] at hok; simp at hok
  | ok u =>
    rw [ho] at hok
    cases hn : env.newReqErr with
    | some e => rw [hn] at hok; simp at hok
    | none =>
      rw [hn] at hok
      dsimp only at hok
      cases hr : env.doRequest (mkUploadReq tpl p.Name) with
      | error e => rw [hr] at hok; simp at hok
      | ok resp =>
        rw [hr] at hok
        dsimp only at hok
        by_cases hs : resp.status = 200
        · rw [if_neg (not_not_intro hs)] at hok
          cases hb : resp.body with
          | error e => rw [hb] at hok; simp at hok
          | ok b =>
            refine ⟨resp, b, rfl, hs, hb, ?_⟩
            dsimp only
            rw [hr]
            dsimp only
            rw [if_neg (not_not_intro hs), hb]
        · rw [if_pos hs] at hok
          simp at hok

theorem move_ok (p : Package) (origin dest fp1 : GoStr) (env : Env) (effs : List Effect)
    (h : p.move origin dest env = (.ok fp1, effs)) :
    fp1 = dest ++ p.Platform.str ++ gs "/" ++ p.Date ++ gs "/" ++ p.Name := by
  unfold Package.move at h
  dsimp only at h
  cases h1 : env.mkdirAll (dest ++ p.Platform.str ++ gs "/" ++ p.Date) with
  | error e => rw [h1] at h; simp at h
  | ok u =>
    rw [h1] at h
    cases h2 : env.rename origin (dest ++ p.Platform.str ++ gs "/" ++ p.Date ++ gs "/" ++ p.Name) with
    | error e => rw [h2] at h; simp at h
    | ok u2 =>
      rw [h2] at h
      cases h3 : env.chmod (dest ++ p.Platform.str ++ gs "/" ++ p.Date ++ gs "/" ++ p.Name) with
      | error e => rw [h3] at h; simp at h
      | ok u3 =>
        rw [h3] at h
        simp at h
        rw [← h.1]
        simp [List.append_assoc]

/-- C6: when the filesystem calls succeed, the move step places the file at
exactly the concatenation of the local base path, the platform string, a
slash, the date, a slash and the package name, creating the directory with
mode 0755 and chmod-ing the file 0755; in particular platform arm64, date
20230101 and base /data/ give /data/arm64/20230101/(name). -/
theorem move_spec (p : Package) (origin dest : GoStr) (env : Env)
    (h1 : env.mkdirAll (dest ++ p.Platform.str ++ gs "/" ++ p.Date) = .ok ())
    (h2 : env.rename origin (dest ++ p.Platform.str ++ gs "/" ++ p.Date ++ gs "/" ++ p.Name) = .ok ())
    (h3 : env.chmod (dest ++ p.Platform.str ++ gs "/" ++ p.Date ++ gs "/" ++ p.Name) = .ok ()) :
    p.move origin dest env =
      (.ok (dest ++ p.Platform.str ++ gs "/" ++ p.Date ++ gs "/" ++ p.Name),
       [.mkdir (dest ++ p.Platform.str ++ gs "/" ++ p.Date) 0o755,
        .rename origin (dest ++ p.Platform.str ++ gs "/" ++ p.Date ++ gs "/" ++ p.Name),
        .chmod (dest ++ p.Platform.str ++ gs "/" ++ p.Date ++ gs "/" ++ p.Name) 0o755]) := by
  unfold Package.move
  dsimp only
  rw [h1, h2, h3]

/-- C5: the upload is a PUT to the remote template with the package name
substituted, carrying exactly the Content-Type application/zip and Max-Days 7
headers; a 200 response stores the full response body verbatim as RemoteURL
and succeeds, while any other status (201 included) is a fatal error carrying
the response status text. -/
theorem remoteStep_wire (p : Package) (tpl fp : GoStr) (env : Env) (resp : HTTPResponse)
    (htpl : tpl ≠ []) (ho : env.openFile fp = .ok ()) (hn : env.newReqErr = none)
    (hr : env.doRequest (mkUploadReq tpl p.Name) = .ok resp) :
    (mkUploadReq tpl p.Name).method = gs "PUT" ∧
    (mkUploadReq tpl p.Name).url = goSprintf1 tpl p.Name ∧
    (mkUploadReq tpl p.Name).headers =
      [(gs "Content-Type", gs "application/zip"), (gs "Max-Days", gs "7")] ∧
    (resp.status = 200 → ∀ b, resp.body = .ok b →
      remoteStep p tpl fp env =
        (.ok (), { p with RemoteURL := b }, [.upload (mkUploadReq tpl p.Name)])) ∧
    (resp.status ≠ 200 →
      remoteStep p tpl fp env =
        (.error (gs "unable to make upload request: " ++ resp.statusText), p,
          [.upload (mkUploadReq tpl p.Name)])) := by
  refine ⟨rfl, rfl, rfl, ?_, ?_⟩
  · intro hs b hb
    unfold remoteStep
    rw [if_neg htpl, ho, hn]
    dsimp only
    rw [hr]
    dsimp only
    rw [if_neg (not_not_intro hs), hb]
  · intro hs
    unfold remoteStep
    rw [if_neg htpl, ho, hn]
    dsimp only
    rw [hr]
    dsimp only
    rw [if_pos hs]

/-- C1 (amended): CreateMirror returns success immediately, with no
download, move or upload performed, exactly when some configured tier
already carries its URL: the local URL template is set and LocalURL is
non-empty, or the remote URL template is set and RemoteURL is non-empty;
otherwise the pipeline runs and its trace is non-empty. -/
theorem createMirror_guard_iff (p : Package) (cfg : Config) (env : Env) :
    Package.CreateMirror p cfg env = (.ok (), p, []) ↔ mirrorGuard p cfg := by
  constructor
  · intro h
    by_contra hg
    unfold Package.CreateMirror at h
    rw [if_neg hg] at h
    cases hd : env.download with
    | error e => rw [hd] at h; simp at h
    | ok fp0 =>
      rw [hd] at h
      dsimp only at h
      by_cases hlp : cfg.localPath ≠ ([] : GoStr)
      · rw [if_pos hlp] at h
        rcases hm : p.move fp0 cfg.localPath env with ⟨mres, effs⟩
        rw [hm] at h
        cases mres with
        | error e => simp at h
        | ok fp1 => simp at h
      · rw [if_neg hlp] at h
        simp at h
  · intro hg
    unfold Package.CreateMirror
    rw [if_pos hg]

/-- C7: whenever the early guard does not fire, the first external call of
CreateMirror is the download-queue call AddMultiple with exactly the origin
URL, the MD5, the fixed retry budget 20 and the size; when that call fails,
CreateMirror returns the wrapped error, the package is unchanged, and no
further call was made. -/
theorem createMirror_download_args (p : Package) (cfg : Config) (env : Env)
    (hg : ¬ mirrorGuard p cfg) :
    ((Package.CreateMirror p cfg env).2.2.head? =
      some (.download p.OriginURL p.MD5 20 p.Size)) ∧
    (∀ e, env.download = .error e →
      Package.CreateMirror p cfg env =
        (.error (gs "unable to read file body: " ++ e), p,
          [.download p.OriginURL p.MD5 20 p.Size])) := by
  constructor
  · unfold Package.CreateMirror
    rw [if_neg hg]
    cases hd : env.download with
    | error e => rfl
    | ok fp0 =>
      dsimp only
      by_cases hlp : cfg.localPath ≠ ([] : GoStr)
      · rw [if_pos hlp]
        rcases hm : p.move fp0 cfg.localPath env with ⟨mres, effs⟩
        cases mres with
        | error e => rfl
        | ok fp1 => rfl
      · rw [if_neg hlp]
        rfl
  · intro e he
    unfold Package.CreateMirror
    rw [if_neg hg, he]

theorem relPath_ne_nil (p : Package) (dest : GoStr) :
    goTrimPfx (dest ++ p.Platform.str ++ gs "/" ++ p.Date ++ gs "/" ++ p.Name) dest ≠ [] := by
  have hassoc : dest ++ p.Platform.str ++ gs "/" ++ p.Date ++ gs "/" ++ p.Name =
      dest ++ (p.Platform.str ++ gs "/" ++ p.Date ++ gs "/" ++ p.Name) := by
    simp [List.append_assoc]
  rw [hassoc, goTrimPfx_append]
  have hmem : ('/' : Char) ∈ p.Platform.str ++ gs "/" ++ p.Date ++ gs "/" ++ p.Name :=
    List.mem_append_left p.Name
      (List.mem_append_left (gs "/")
        (List.mem_append_left p.Date
          (List.mem_append_right p.Platform.str (by decide))))
  intro hnil
  rw [hnil] at hmem
  exact absurd hmem (List.not_mem_nil _)

/-- C2 (amended): when the guard does not fire and CreateMirror returns nil,
each tier that can be populated is: with both gapps.local_path and
gapps.local_url set, LocalURL is non-empty; with gapps.local_path unset,
LocalURL is left unchanged even when gapps.local_url is set; and with
gapps.remote_url set, the upload got a 200 response and RemoteURL is exactly
its body. -/
theorem createMirror_populates (p : Package) (cfg : Config) (env : Env)
    (hg : ¬ mirrorGuard p cfg)
    (hok : (Package.CreateMirror p cfg env).1 = .ok ()) :
    (cfg.localPath ≠ [] → cfg.localURL ≠ [] →
      (Package.CreateMirror p cfg env).2.1.LocalURL ≠ []) ∧
    (cfg.localPath = [] → (Package.CreateMirror p cfg env).2.1.LocalURL = p.LocalURL) ∧
    (cfg.remoteURL ≠ [] →
      ∃ resp b, env.doRequest (mkUploadReq cfg.remoteURL p.Name) = .ok resp ∧
        resp.status = 200 ∧ resp.body = .ok b ∧
        (Package.CreateMirror p cfg env).2.1.RemoteURL = b) := by
  unfold Package.CreateMirror at hok ⊢
  rw [if_neg hg] at hok ⊢
  cases hd : env.download with
  | error e => rw [hd] at hok; simp at hok
  | ok fp0 =>
    rw [hd] at hok
    dsimp only at hok ⊢
    by_cases hlp : cfg.localPath ≠ ([] : GoStr)
    · rw [if_pos hlp] at hok ⊢
      rcases hm : p.move fp0 cfg.localPath env with ⟨mres, effs⟩
      rw [hm] at hok
      cases mres with
      | error e => dsimp only at hok; simp at hok
      | ok fp1 =>
        dsimp only at hok ⊢
        by_cases hlu : cfg.localURL ≠ ([] : GoStr)
        · rw [if_pos hlu] at hok ⊢
          refine ⟨?_, ?_, ?_⟩
          · intro _ _
            rw [remoteStep_keeps_LocalURL]
            have hfp1 := move_ok p fp0 cfg.localPath fp1 env effs hm
            dsimp only
            rw [hfp1]
            exact goSprintf1_ne_nil hlu (relPath_ne_nil p cfg.localPath)
          · intro h0
            exact absurd h0 hlp
          · intro hru
            obtain ⟨resp, b, hreq, hst, hbody, hres⟩ :=
              remoteStep_ok _ cfg.remoteURL fp1 env hru hok
            exact ⟨resp, b, hreq, hst, hbody, by rw [hres]⟩
        · rw [if_neg hlu] at hok ⊢
          refine ⟨?_, ?_, ?_⟩
          · intro _ h
            exact absurd h hlu
          · intro h0
            exact absurd h0 hlp
          · intro hru
            obtain ⟨resp, b, hreq, hst, hbody, hres⟩ :=
              remoteStep_ok p cfg.remoteURL fp1 env hru hok
            exact ⟨resp, b, hreq, hst, hbody, by rw [hres]⟩
    · rw [if_neg hlp] at hok ⊢
      dsimp only at hok ⊢
      refine ⟨?_, ?_, ?_⟩
      · intro h _
        exact absurd h hlp
      · intro _
        rw [remoteStep_keeps_LocalURL]
      · intro hru
        obtain ⟨resp, b, hreq, hst, hbody, hres⟩ :=
          remoteStep_ok p cfg.remoteURL fp0 env hru hok
        exact ⟨resp, b, hreq, hst, hbody, by rw [hres]⟩

/-- C8: across every outcome of CreateMirror, the only fields that can
change are LocalURL and RemoteURL; Name, Date, OriginURL, MD5, Size,
Platform, Android and Variant are returned unchanged. -/
theorem createMirror_frame (p : Package) (cfg : Config) (env : Env) :
    (Package.CreateMirror p cfg env).2.1.Name = p.Name ∧
    (Package.CreateMirror p cfg env).2.1.Date = p.Date ∧
    (Package.CreateMirror p cfg env).2.1.OriginURL = p.OriginURL ∧
    (Package.CreateMirror p cfg env).2.1.MD5 = p.MD5 ∧
    (Package.CreateMirror p cfg env).2.1.Size = p.Size ∧
    (Package.CreateMirror p cfg env).2.1.Platform = p.Platform ∧
    (Package.CreateMirror p cfg env).2.1.Android = p.Android ∧
    (Package.CreateMirror p cfg env).2.1.Variant = p.Variant := by
  unfold Package.CreateMirror
  by_cases hg : mirrorGuard p cfg
  · rw [if_pos hg]
    exact ⟨rfl, rfl, rfl, rfl, rfl, rfl, rfl, rfl⟩
  · rw [if_neg hg]
    cases hd : env.download with
    | error e => exact ⟨rfl, rfl, rfl, rfl, rfl, rfl, rfl, rfl⟩
    | ok fp0 =>
      dsimp only
      by_cases hlp : cfg.localPath ≠ ([] : GoStr)
      · rw [if_pos hlp]
        rcases hm : p.move fp0 cfg.localPath env with ⟨mres, effs⟩
        cases mres with
        | error e => exact ⟨rfl, rfl, rfl, rfl, rfl, rfl, rfl, rfl⟩
        | ok fp1 =>
          dsimp only
          by_cases hlu : cfg.localURL ≠ ([] : GoStr)
          · rw [if_pos hlu]
            simp [remoteStep_keeps_Name, remoteStep_keeps_Date, remoteStep_keeps_OriginURL,
              remoteStep_keeps_MD5, remoteStep_keeps_Size, remoteStep_keeps_Platform,
              remoteStep_keeps_Android, remoteStep_keeps_Variant]
          · rw [if_neg hlu]
            simp [remoteStep_keeps_Name, remoteStep_keeps_Date, remoteStep_keeps_OriginURL,
              remoteStep_keeps_MD5, remoteStep_keeps_Size, remoteStep_keeps_Platform,
              remoteStep_keeps_Android, remoteStep_keeps_Variant]
      · rw [if_neg hlp]
        dsimp only
        simp [remoteStep_keeps_Name, remoteStep_keeps_Date, remoteStep_keeps_OriginURL,
          remoteStep_keeps_MD5, remoteStep_keeps_Size, remoteStep_keeps_Platform,
          remoteStep_keeps_Android, remoteStep_keeps_Variant]

/-- C1 counterexample: with both tiers configured and only LocalURL already
set, CreateMirror returns success immediately with no download, move or
upload, although the configured remote tier is unpopulated — so the claimed
guard condition (all configured tiers populated, or none configured) does
not describe the code. -/
theorem createMirror_guard_counterexample :
    Package.CreateMirror pkgLocalDone cfgBoth okEnv = (.ok (), pkgLocalDone, []) ∧
    ¬ ((cfgBoth.localURL = [] ∧ cfgBoth.remoteURL = []) ∨
      ((cfgBoth.localURL ≠ [] → pkgLocalDone.LocalURL ≠ []) ∧
        (cfgBoth.remoteURL ≠ [] → pkgLocalDone.RemoteURL ≠ []))) := by
  exact ⟨rfl, by decide⟩

/-- C2 counterexample: with gapps.local_url configured but gapps.local_path
unset, CreateMirror returns nil (guard not fired) while LocalURL stays
empty — the configured local tier is not populated. -/
theorem createMirror_populates_counterexample :
    ¬ mirrorGuard pkgFresh cfgLocalURLOnly ∧
    (Package.CreateMirror pkgFresh cfgLocalURLOnly okEnv).1 = .ok () ∧
    cfgLocalURLOnly.localURL ≠ [] ∧
    (Package.CreateMirror pkgFresh cfgLocalURLOnly okEnv).2.1.LocalURL = [] := by
  exact ⟨by decide, rfl, by decide, rfl⟩

theorem createMirror_populates_witness :
    (¬ mirrorGuard pkgFresh cfgBoth) ∧
    (Package.CreateMirror pkgFresh cfgBoth okEnv).1 = .ok () ∧
    (Package.CreateMirror pkgFresh cfgBoth okEnv).2.1.LocalURL ≠ [] ∧
    (∃ resp b, okEnv.doRequest (mkUploadReq cfgBoth.remoteURL pkgFresh.Name) = .ok resp ∧
      resp.status = 200 ∧ resp.body = .ok b ∧
      (Package.CreateMirror pkgFresh cfgBoth okEnv).2.1.RemoteURL = b) :=
  ⟨by decide, rfl,
   (createMirror_populates pkgFresh cfgBoth okEnv (by decide) rfl).1 (by decide) (by decide),
   (createMirror_populates pkgFresh cfgBoth okEnv (by decide) rfl).2.2 (by decide)⟩

theorem remoteStep_wire_witness :
    ((gs "http://up/%s" : GoStr) ≠ [] ∧ okEnv.openFile (gs "/tmp/pkg") = .ok () ∧
      okEnv.newReqErr = none ∧
      okEnv.doRequest (mkUploadReq (gs "http://up/%s") pkgFresh.Name) = .ok respW ∧
      respW.status = 200 ∧ respW.body = .ok (gs "https://transfer.sh/abc/x.zip")) ∧
    remoteStep pkgFresh (gs "http://up/%s") (gs "/tmp/pkg") okEnv =
      (.ok (), { pkgFresh with RemoteURL := gs "https://transfer.sh/abc/x.zip" },
        [.upload (mkUploadReq (gs "http://up/%s") pkgFresh.Name)]) :=
  ⟨⟨by decide, rfl, rfl, rfl, rfl, rfl⟩,
   (remoteStep_wire pkgFresh (gs "http://up/%s") (gs "/tmp/pkg") okEnv respW
       (by decide) rfl rfl rfl).2.2.2.1 rfl _ rfl⟩

theorem move_spec_witness :
    (okEnv.mkdirAll (gs "/data/arm64/20230101") = .ok () ∧
      okEnv.rename (gs "/tmp/pkg")
        (gs "/data/arm64/20230101/open_gapps-arm64-11.0-pico-20230101.zip") = .ok () ∧
      okEnv.chmod (gs "/data/arm64/20230101/open_gapps-arm64-11.0-pico-20230101.zip") =
        .ok ()) ∧
    pkgFresh.move (gs "/tmp/pkg") (gs "/data/") okEnv =
      (.ok (gs "/data/arm64/20230101/open_gapps-arm64-11.0-pico-20230101.zip"),
       [.mkdir (gs "/data/arm64/20230101") 0o755,
        .rename (gs "/tmp/pkg")
          (gs "/data/arm64/20230101/open_gapps-arm64-11.0-pico-20230101.zip"),
        .chmod (gs "/data/arm64/20230101/open_gapps-arm64-11.0-pico-20230101.zip") 0o755]) :=
  ⟨⟨rfl, rfl, rfl⟩, move_spec pkgFresh (gs "/tmp/pkg") (gs "/data/") okEnv rfl rfl rfl⟩

theorem createMirror_download_args_witness :
    (¬ mirrorGuard pkgFresh cfgBoth) ∧
    errEnv.download = .error (gs "connection reset") ∧
    Package.CreateMirror pkgFresh cfgBoth errEnv =
      (.error (gs "unable to read file body: connection reset"), pkgFresh,
        [.download pkgFresh.OriginURL pkgFresh.MD5 20 pkgFresh.Size]) :=
  ⟨by decide, rfl,
   (createMirror_download_args pkgFresh cfgBoth errEnv (by decide)).2 _ rfl⟩
